import Mathlib

/-!
Shallow embedding of the booking screen (src/src/pages/BookingScreen.tsx).

The component state is the ten useState fields of the screen.  The submit
handler (handleBooking, lines 44-92) is modelled as a pure function from the
current state, the identity lookup result and the submission port's outcome to
the list of observable events it performs, in order: setting the loading flag,
alert messages, the single port invocation with its payload, and the success
callback.  JavaScript truthiness on strings is modelled as emptiness tests, and
the expression result.error OR default is modelled by jsOrElse.

Calendar instants are modelled as minutes since the epoch (an Int) with a fixed
consumer timezone offset in minutes (local wall clock = UTC + offset; daylight
saving shifts are not modelled).  A calendar date is its day number, i.e. the
floor of minutes / 1440; the YYYY-MM-DD string of the source is a strictly
monotone rendering of that day number, so ordering and arithmetic on day
numbers faithfully reflect ordering of the date strings.  Date.setDate(getDate
of date + i) advances the local calendar by i days, i.e. adds i * 1440 minutes
to the instant; toISOString renders the UTC calendar date of the instant.
-/

namespace FisioVem

inductive ConsultationType
  | presencial
  | online
  deriving DecidableEq, Repr

/-- The provider record handed to the screen (fields of Physiotherapist that
the screen reads). -/
structure Physiotherapist where
  id : String
  name : String
  specialty : String
  price : Nat
  rating : Nat
  experience : String
  deriving DecidableEq, Repr

/-- The authenticated user as returned by apiService.getCurrentUser. -/
structure User where
  id : String
  deriving DecidableEq, Repr

/-- The ten useState fields of BookingScreen (lines 11-20). -/
structure BookingState where
  selectedDate : String
  selectedTime : String
  consultationType : ConsultationType
  addressStreet : String
  addressNumber : String
  addressNeighborhood : String
  addressCity : String
  addressState : String
  notes : String
  isLoading : Bool
  deriving DecidableEq, Repr

/-- The static time-slot catalog (lines 22-25). -/
def timeSlots : List String :=
  ["08:00", "09:00", "10:00", "11:00", "14:00", "15:00", "16:00", "17:00", "18:00"]

/-- The payload of apiService.bookConsultation (lines 66-79).  Fields that the
source sets to undefined outside presencial mode are Options. -/
structure BookingRequest where
  patientId : String
  physiotherapistId : String
  physiotherapistName : String
  date : String
  time : String
  type : ConsultationType
  specialty : String
  address : Option String
  city : Option String
  state : Option String
  price : Nat
  notes : String
  deriving DecidableEq, Repr

/-- Outcome of awaiting the submission port: a resolved response with its
success flag and optional error string, or a thrown fault. -/
inductive PortResult
  | resolved (success : Bool) (error : Option String)
  | thrown
  deriving DecidableEq, Repr

/-- Observable actions performed by the submit handler. -/
inductive Event
  | setLoading (b : Bool)
  | alert (msg : String)
  | portCall (req : BookingRequest)
  | onSuccess
  deriving DecidableEq, Repr

/-- JavaScript `e OR d` on an optional string: the string when present and
truthy (non-empty), otherwise the default (line 85). -/
def jsOrElse (e : Option String) (d : String) : String :=
  match e with
  | some msg => if msg == "" then d else msg
  | none => d

/-- The first guard of handleBooking (line 45): date or time unselected. -/
def missingDateTime (s : BookingState) : Bool :=
  s.selectedDate == "" || s.selectedTime == ""

/-- The second guard of handleBooking (lines 50-51): presencial mode with some
empty address sub-field. -/
def missingAddress (s : BookingState) : Bool :=
  s.consultationType == ConsultationType.presencial &&
    (s.addressStreet == "" || s.addressNumber == "" || s.addressNeighborhood == "" ||
     s.addressCity == "" || s.addressState == "")

/-- The controller-side submit precondition: the conjunction of the negated
guards of handleBooking (lines 44-55); this is the spec's canSubmit. -/
def canSubmit (s : BookingState) : Bool :=
  !missingDateTime s && !missingAddress s

/-- The request object built at lines 66-79. -/
def mkRequest (phys : Physiotherapist) (u : User) (s : BookingState) : BookingRequest :=
  { patientId := u.id
    physiotherapistId := phys.id
    physiotherapistName := phys.name
    date := s.selectedDate
    time := s.selectedTime
    type := s.consultationType
    specialty := phys.specialty
    address :=
      if s.consultationType == ConsultationType.presencial then
        some (s.addressStreet ++ ", " ++ s.addressNumber ++ " - " ++ s.addressNeighborhood)
      else none
    city :=
      if s.consultationType == ConsultationType.presencial then some s.addressCity
      else none
    state :=
      if s.consultationType == ConsultationType.presencial then some s.addressState
      else none
    price := phys.price
    notes := s.notes }

/-- The submit handler handleBooking (lines 44-92), as the ordered list of
events it performs, given the identity lookup result and the port outcome. -/
def handleBooking (phys : Physiotherapist) (s : BookingState)
    (currentUser : Option User) (r : PortResult) : List Event :=
  if missingDateTime s then
    [Event.alert "Por favor, selecione data e horário"]
  else if missingAddress s then
    [Event.alert "Por favor, preencha todos os campos de endereço"]
  else
    Event.setLoading true ::
      ((match currentUser with
        | none => [Event.alert "Usuário não encontrado"]
        | some u =>
          Event.portCall (mkRequest phys u s) ::
            match r with
            | PortResult.resolved true _ =>
              [Event.alert "Consulta agendada com sucesso!", Event.onSuccess]
            | PortResult.resolved false e =>
              [Event.alert (jsOrElse e "Erro ao agendar consulta")]
            | PortResult.thrown =>
              [Event.alert "Erro inesperado ao agendar consulta"]) ++
        [Event.setLoading false])

/-- The disabled predicate of the submit button (line 295). -/
def buttonDisabled (s : BookingState) : Bool :=
  missingDateTime s || s.isLoading

/-- A press of the submit button (lines 293-299): a disabled button swallows
the click, otherwise onClick runs handleBooking. -/
def pressSubmit (phys : Physiotherapist) (s : BookingState)
    (currentUser : Option User) (r : PortResult) : List Event :=
  if buttonDisabled s then [] else handleBooking phys s currentUser r

/-- The mode mutator: the onClick handlers at lines 175 and 187 call only the
setConsultationType state setter. -/
def setMode (s : BookingState) (t : ConsultationType) : BookingState :=
  { s with consultationType := t }

def isPortCall : Event → Bool
  | Event.portCall _ => true
  | _ => false

/-- Number of submission-port invocations in an event trace. -/
def portCallCount (evs : List Event) : Nat :=
  (evs.filter isPortCall).length

/-- The payload of the first submission-port invocation in a trace, if any. -/
def firstRequest : List Event → Option BookingRequest
  | [] => none
  | Event.portCall req :: _ => some req
  | _ :: rest => firstRequest rest

/-- The attempt surfaced the given failure reason (the source surfaces failure
reasons as alert messages) and did not reach the success callback. -/
def failedWith (evs : List Event) (reason : String) : Prop :=
  Event.alert reason ∈ evs ∧ Event.onSuccess ∉ evs

/-- UTC calendar day number of an instant, as rendered by toISOString. -/
def utcDay (t : Int) : Int := t / 1440

/-- Local calendar day number of an instant for a consumer at the given
timezone offset (minutes). -/
def localDay (t offset : Int) : Int := (t + offset) / 1440

/-- getNextDays (lines 27-42): for i = 1..count, take the current instant,
advance the local calendar by i days (setDate), and record the UTC calendar
date of the result (toISOString).  A non-positive count never runs the loop
body.  Only the canonical value of each entry is modelled; the locale label is
display-only. -/
def getNextDays (count : Int) (t : Int) : List Int :=
  (List.range count.toNat).map (fun (j : Nat) => utcDay (t + ((j : Int) + 1) * 1440))

/-! ### Fixtures for witnesses and counterexamples -/

def phys0 : Physiotherapist :=
  { id := "pt1", name := "Ana Souza", specialty := "Ortopedia", price := 120,
    rating := 5, experience := "8 anos" }

def user0 : User := { id := "u1" }

/-- A draft in remote mode with date and time selected and empty address. -/
def remoteDraft : BookingState :=
  { selectedDate := "2025-03-10", selectedTime := "09:00",
    consultationType := ConsultationType.online,
    addressStreet := "", addressNumber := "", addressNeighborhood := "",
    addressCity := "", addressState := "", notes := "", isLoading := false }

/-- A draft in presencial mode with date and time selected but an incomplete
address (street missing). -/
def inPersonIncomplete : BookingState :=
  { selectedDate := "2025-03-10", selectedTime := "09:00",
    consultationType := ConsultationType.presencial,
    addressStreet := "", addressNumber := "42", addressNeighborhood := "Centro",
    addressCity := "Porto Alegre", addressState := "RS", notes := "",
    isLoading := false }

/-- A complete presencial draft. -/
def inPersonComplete : BookingState :=
  { selectedDate := "2025-03-10", selectedTime := "09:00",
    consultationType := ConsultationType.presencial,
    addressStreet := "Rua A", addressNumber := "42", addressNeighborhood := "Centro",
    addressCity := "Porto Alegre", addressState := "RS", notes := "",
    isLoading := false }

/-- A valid draft with a submission in flight. -/
def loadingDraft : BookingState :=
  { remoteDraft with isLoading := true }

/-! ### Helper lemmas -/

theorem canSubmit_true_iff (s : BookingState) :
    canSubmit s = true ↔ missingDateTime s = false ∧ missingAddress s = false := by
  simp [canSubmit, Bool.and_eq_true, Bool.not_eq_true']

/-- On a validated draft with an authenticated user, handleBooking performs
exactly: enter loading, call the port once with the built request, surface the
port outcome, leave loading. -/
theorem handleBooking_valid_user (phys : Physiotherapist) (s : BookingState)
    (u : User) (r : PortResult) (h : canSubmit s = true) :
    handleBooking phys s (some u) r =
      Event.setLoading true :: Event.portCall (mkRequest phys u s) ::
        ((match r with
          | PortResult.resolved true _ =>
            [Event.alert "Consulta agendada com sucesso!", Event.onSuccess]
          | PortResult.resolved false e =>
            [Event.alert (jsOrElse e "Erro ao agendar consulta")]
          | PortResult.thrown =>
            [Event.alert "Erro inesperado ao agendar consulta"]) ++
          [Event.setLoading false]) := by
  obtain ⟨h1, h2⟩ := (canSubmit_true_iff s).mp h
  simp [handleBooking, h1, h2]

/-- On a validated draft with no authenticated user, handleBooking enters
loading, alerts, and leaves loading, with no port call. -/
theorem handleBooking_no_user (phys : Physiotherapist) (s : BookingState)
    (r : PortResult) (h : canSubmit s = true) :
    handleBooking phys s none r =
      [Event.setLoading true, Event.alert "Usuário não encontrado",
       Event.setLoading false] := by
  obtain ⟨h1, h2⟩ := (canSubmit_true_iff s).mp h
  simp [handleBooking, h1, h2]

theorem utcDay_add_days (t k : Int) : utcDay (t + k * 1440) = utcDay t + k := by
  unfold utcDay
  exact Int.add_mul_ediv_right t k (by norm_num)

theorem getNextDays_eq_map (n t : Int) :
    getNextDays n t =
      (List.range n.toNat).map (fun (j : Nat) => utcDay t + ((j : Int) + 1)) := by
  unfold getNextDays
  refine List.map_congr_left ?_
  intro j _
  exact utcDay_add_days t ((j : Int) + 1)

theorem online_beq_presencial :
    (ConsultationType.online == ConsultationType.presencial) = false := rfl

/-- A draft in remote mode whose five address fields are replaced by the given
strings; used to state that canSubmit ignores address contents in remote
mode. -/
def withOnlineAddress (s : BookingState) (a b c d e : String) : BookingState :=
  { s with
    consultationType := ConsultationType.online
    addressStreet := a
    addressNumber := b
    addressNeighborhood := c
    addressCity := d
    addressState := e }

/-! ### Claims -/

/-- C1: while a submission attempt is in flight (the loading flag is set), a
further press of the submit button is rejected: the button is disabled, so the
press performs no event at all and in particular never invokes the submission
port a second time. -/
theorem C1_no_reentrant_submit (phys : Physiotherapist) (s : BookingState)
    (u : Option User) (r : PortResult) (h : s.isLoading = true) :
    pressSubmit phys s u r = [] ∧ portCallCount (pressSubmit phys s u r) = 0 := by
  have hb : buttonDisabled s = true := by simp [buttonDisabled, h]
  constructor <;> simp [pressSubmit, hb, portCallCount]

theorem C1_witness :
    loadingDraft.isLoading = true ∧
    pressSubmit phys0 loadingDraft (some user0) PortResult.thrown = [] :=
  ⟨rfl, (C1_no_reentrant_submit phys0 loadingDraft (some user0) PortResult.thrown rfl).1⟩

/-- C2 counterexample: a presencial draft with date and time selected but an
empty street has canSubmit false while the submit button is NOT disabled: the
button-disable predicate does not consult the address fields, so the two
layers do not enforce the same condition. -/
theorem C2_counterexample :
    canSubmit inPersonIncomplete = false ∧ buttonDisabled inPersonIncomplete = false := by
  decide

/-- C2 (amended): the button-disable predicate checks only missing date/time
and the in-flight flag, so a submittable draft has the button disabled exactly
while loading; the controller independently re-checks the full canSubmit
condition on every submit call and rejects without invoking the port when it
fails, so the address requirement is enforced by the controller layer alone. -/
theorem C2_amended_two_layers (phys : Physiotherapist) (s : BookingState)
    (u : Option User) (r : PortResult) :
    (canSubmit s = true → buttonDisabled s = s.isLoading) ∧
    (canSubmit s = false →
      portCallCount (handleBooking phys s u r) = 0 ∧
      Event.onSuccess ∉ handleBooking phys s u r) := by
  constructor
  · intro h
    obtain ⟨h1, -⟩ := (canSubmit_true_iff s).mp h
    simp [buttonDisabled, h1]
  · intro h
    cases hdt : missingDateTime s with
    | true => simp [handleBooking, hdt, portCallCount, isPortCall]
    | false =>
      cases hma : missingAddress s with
      | true => simp [handleBooking, hdt, hma, portCallCount, isPortCall]
      | false => simp [canSubmit, hdt, hma] at h

theorem C2_witness :
    buttonDisabled remoteDraft = remoteDraft.isLoading ∧
    portCallCount (handleBooking phys0 inPersonIncomplete (some user0) PortResult.thrown) = 0 :=
  ⟨(C2_amended_two_layers phys0 remoteDraft (some user0) PortResult.thrown).1 (by decide),
   ((C2_amended_two_layers phys0 inPersonIncomplete (some user0) PortResult.thrown).2
     (by decide)).1⟩

/-- C3: for a presencial draft, canSubmit holds iff date, time and all five
address sub-fields are non-empty; whenever canSubmit fails, handleBooking
never invokes the port, never reaches the success callback, and surfaces one
of the two validation failure messages; for a remote draft, canSubmit is
independent of the address field contents. -/
theorem C3_canSubmit_characterization (phys : Physiotherapist) (s : BookingState)
    (u : Option User) (r : PortResult) :
    (s.consultationType = ConsultationType.presencial →
      (canSubmit s = true ↔
        (s.selectedDate ≠ "" ∧ s.selectedTime ≠ "" ∧ s.addressStreet ≠ "" ∧
         s.addressNumber ≠ "" ∧ s.addressNeighborhood ≠ "" ∧ s.addressCity ≠ "" ∧
         s.addressState ≠ ""))) ∧
    (canSubmit s = false →
      portCallCount (handleBooking phys s u r) = 0 ∧
      Event.onSuccess ∉ handleBooking phys s u r ∧
      (Event.alert "Por favor, selecione data e horário" ∈ handleBooking phys s u r ∨
       Event.alert "Por favor, preencha todos os campos de endereço" ∈ handleBooking phys s u r)) ∧
    (∀ a b c d e : String,
      canSubmit (withOnlineAddress s a b c d e) =
        canSubmit (setMode s ConsultationType.online)) := by
  refine ⟨?_, ?_, ?_⟩
  · intro hm
    simp [canSubmit, missingDateTime, missingAddress, hm]
    tauto
  · intro h
    cases hdt : missingDateTime s with
    | true => simp [handleBooking, hdt, portCallCount, isPortCall]
    | false =>
      cases hma : missingAddress s with
      | true => simp [handleBooking, hdt, hma, portCallCount, isPortCall]
      | false => simp [canSubmit, hdt, hma] at h
  · intro a b c d e
    simp [canSubmit, missingDateTime, missingAddress, withOnlineAddress, setMode,
      online_beq_presencial]

theorem C3_witness :
    portCallCount (handleBooking phys0 inPersonIncomplete (some user0) PortResult.thrown) = 0 ∧
    canSubmit (withOnlineAddress remoteDraft "X" "" "Y" "" "") =
      canSubmit (setMode remoteDraft ConsultationType.online) :=
  ⟨((C3_canSubmit_characterization phys0 inPersonIncomplete (some user0)
      PortResult.thrown).2.1 (by decide)).1,
   (C3_canSubmit_characterization phys0 remoteDraft (some user0)
      PortResult.thrown).2.2 "X" "" "Y" "" ""⟩

/-- C4 counterexample: at reference instant 1380 minutes after the epoch
(1970-01-01 23:00 UTC), a consumer at timezone offset +120 minutes has local
calendar day 1 (1970-01-02), so the claim predicts a first entry of day 2
(1970-01-03); the code's first entry is the UTC day of the shifted instant,
day 1 — not the reference's local date plus one day. -/
theorem C4_counterexample :
    getNextDays 1 1380 = [1] ∧
    localDay 1380 120 + 1 = 2 ∧
    (getNextDays 1 1380).head? ≠ some (localDay 1380 120 + 1) := by
  decide

/-- C4 (amended): for every positive count, getNextDays returns exactly that
many entries, strictly increasing, whose canonical values are UTC calendar
dates (toISOString renders UTC, not the consumer's local calendar), the first
being the reference instant's UTC date plus one day and the last the UTC date
plus the count. -/
theorem C4_amended_generated_days (n t : Int) (hn : 0 < n) :
    (getNextDays n t).length = n.toNat ∧
    List.Pairwise (· < ·) (getNextDays n t) ∧
    (getNextDays n t).head? = some (utcDay t + 1) ∧
    (getNextDays n t).getLast? = some (utcDay t + n) := by
  have key := getNextDays_eq_map n t
  refine ⟨by rw [key]; simp, ?_, ?_, ?_⟩
  · rw [key]
    exact (List.pairwise_lt_range n.toNat).map _ (fun a b hab => by omega)
  · rw [key, List.head?_eq_getElem?, List.getElem?_map,
      List.getElem?_range (show 0 < n.toNat by omega)]
    simp
  · have hidx : n.toNat - 1 < n.toNat := by omega
    rw [key, List.getLast?_eq_getElem?, List.length_map, List.length_range,
      List.getElem?_map, List.getElem?_range hidx]
    have hcast : ((n.toNat - 1 : Nat) : Int) + 1 = n := by omega
    simp [hcast]

theorem C4_witness :
    (getNextDays 3 100).length = (3 : Int).toNat ∧
    (getNextDays 3 100).head? = some (utcDay 100 + 1) :=
  ⟨(C4_amended_generated_days 3 100 (by decide)).1,
   (C4_amended_generated_days 3 100 (by decide)).2.2.1⟩

/-- C5 counterexample: on a validated draft with no authenticated user, the
handler does set the loading flag (the submitting state) before the identity
check fails — contradicting the claim that the failure occurs without
entering the submitting state — though the port is indeed never invoked and
the no-user failure message is surfaced. -/
theorem C5_counterexample :
    Event.setLoading true ∈ handleBooking phys0 remoteDraft none PortResult.thrown ∧
    portCallCount (handleBooking phys0 remoteDraft none PortResult.thrown) = 0 ∧
    Event.alert "Usuário não encontrado" ∈ handleBooking phys0 remoteDraft none PortResult.thrown := by
  decide

/-- C5 (amended): on a validated draft with no authenticated user, the handler
enters the submitting state first, then the identity check fails: it surfaces
the no-user failure, never invokes the port, and clears the loading flag on
return — the loading flag is set before the identity check, not after it. -/
theorem C5_amended_no_user (phys : Physiotherapist) (s : BookingState)
    (r : PortResult) (h : canSubmit s = true) :
    handleBooking phys s none r =
      [Event.setLoading true, Event.alert "Usuário não encontrado",
       Event.setLoading false] ∧
    portCallCount (handleBooking phys s none r) = 0 ∧
    failedWith (handleBooking phys s none r) "Usuário não encontrado" := by
  have heq := handleBooking_no_user phys s r h
  refine ⟨heq, ?_, ?_⟩
  · rw [heq]
    simp [portCallCount, isPortCall]
  · rw [heq]
    simp [failedWith]

theorem C5_witness :
    handleBooking phys0 remoteDraft none (PortResult.resolved true none) =
      [Event.setLoading true, Event.alert "Usuário não encontrado",
       Event.setLoading false] :=
  (C5_amended_no_user phys0 remoteDraft (PortResult.resolved true none) (by decide)).1

/-- C6 counterexample: a negative count is answered by the silently empty
sequence — the generation loop never runs and no precondition failure of any
kind occurs — contradicting the claimed fail-fast behaviour. -/
theorem C6_counterexample : getNextDays (-3) 500 = [] := rfl

/-- C6 (amended): for every non-positive count, zero included, getNextDays
yields the empty sequence; negative counts are not rejected, the loop body
simply never runs. -/
theorem C6_amended_nonpositive (n t : Int) (h : n ≤ 0) : getNextDays n t = [] := by
  unfold getNextDays
  have h0 : n.toNat = 0 := by omega
  rw [h0]
  rfl

theorem C6_witness : getNextDays 0 0 = [] := C6_amended_nonpositive 0 0 (by decide)

/-- C7: on a validated draft with an authenticated user, the handler invokes
the port exactly once, with the request built from the draft: the patient's
identifier, the provider's identifier, name, specialty and price, the selected
date, time and mode, notes passed through verbatim, and — in remote mode —
address, city and state all absent (none), never empty strings. -/
theorem C7_request_payload (phys : Physiotherapist) (s : BookingState) (u : User)
    (r : PortResult) (h : canSubmit s = true) :
    firstRequest (handleBooking phys s (some u) r) = some (mkRequest phys u s) ∧
    portCallCount (handleBooking phys s (some u) r) = 1 ∧
    (mkRequest phys u s).patientId = u.id ∧
    (mkRequest phys u s).physiotherapistId = phys.id ∧
    (mkRequest phys u s).physiotherapistName = phys.name ∧
    (mkRequest phys u s).specialty = phys.specialty ∧
    (mkRequest phys u s).price = phys.price ∧
    (mkRequest phys u s).date = s.selectedDate ∧
    (mkRequest phys u s).time = s.selectedTime ∧
    (mkRequest phys u s).type = s.consultationType ∧
    (s.consultationType = ConsultationType.online →
      (mkRequest phys u s).address = none ∧ (mkRequest phys u s).city = none ∧
      (mkRequest phys u s).state = none) ∧
    (mkRequest phys u s).notes = s.notes := by
  have heq := handleBooking_valid_user phys s u r h
  refine ⟨by rw [heq]; rfl, ?_, rfl, rfl, rfl, rfl, rfl, rfl, rfl, rfl, ?_, rfl⟩
  · rw [heq]
    cases r with
    | resolved b e => cases b <;> simp [portCallCount, isPortCall]
    | thrown => simp [portCallCount, isPortCall]
  · intro hmode
    simp [mkRequest, hmode, online_beq_presencial]

theorem C7_witness :
    firstRequest (handleBooking phys0 remoteDraft (some user0) (PortResult.resolved true none)) =
      some (mkRequest phys0 user0 remoteDraft) ∧
    (mkRequest phys0 user0 remoteDraft).address = none := by
  obtain ⟨h1, -, -, -, -, -, -, -, -, -, h11, -⟩ :=
    C7_request_payload phys0 remoteDraft user0 (PortResult.resolved true none) (by decide)
  exact ⟨h1, (h11 rfl).1⟩

/-- C8 counterexample: when the port resolves with success false and an error
string that is present but empty, the surfaced failure reason is the generic
message, not the provided (empty) message — the source applies JavaScript OR,
so a present-but-empty error string is replaced by the generic message. -/
theorem C8_counterexample :
    Event.alert "Erro ao agendar consulta" ∈
      handleBooking phys0 remoteDraft (some user0) (PortResult.resolved false (some "")) ∧
    Event.alert "" ∉
      handleBooking phys0 remoteDraft (some user0) (PortResult.resolved false (some "")) := by
  decide

/-- C8 (amended): every failing port outcome yields a failed state whose
reason is the port's error message when present and non-empty, and otherwise a
generic message: a non-empty explicit error string is surfaced verbatim (in
particular error "slot taken" yields that reason), a missing or empty error
string yields the generic rejection message, and a thrown fault yields the
generic unexpected-error message. -/
theorem C8_amended_failure_reasons (phys : Physiotherapist) (s : BookingState) (u : User)
    (h : canSubmit s = true) :
    (∀ e : String, e ≠ "" →
      failedWith (handleBooking phys s (some u) (PortResult.resolved false (some e))) e) ∧
    failedWith (handleBooking phys s (some u) (PortResult.resolved false none))
      "Erro ao agendar consulta" ∧
    failedWith (handleBooking phys s (some u) (PortResult.resolved false (some "")))
      "Erro ao agendar consulta" ∧
    failedWith (handleBooking phys s (some u) PortResult.thrown)
      "Erro inesperado ao agendar consulta" ∧
    failedWith (handleBooking phys s (some u) (PortResult.resolved false (some "slot taken")))
      "slot taken" := by
  refine ⟨?_, ?_, ?_, ?_, ?_⟩
  · intro e he
    rw [handleBooking_valid_user phys s u _ h]
    have hbe : (e == "") = false := beq_eq_false_iff_ne.mpr he
    simp [failedWith, jsOrElse, hbe]
  · rw [handleBooking_valid_user phys s u _ h]
    simp [failedWith, jsOrElse]
  · rw [handleBooking_valid_user phys s u _ h]
    have hj : jsOrElse (some "") "Erro ao agendar consulta" = "Erro ao agendar consulta" := rfl
    simp [failedWith, hj]
  · rw [handleBooking_valid_user phys s u _ h]
    simp [failedWith]
  · rw [handleBooking_valid_user phys s u _ h]
    have hj : jsOrElse (some "slot taken") "Erro ao agendar consulta" = "slot taken" := rfl
    simp [failedWith, hj]

theorem C8_witness :
    failedWith (handleBooking phys0 remoteDraft (some user0)
      (PortResult.resolved false (some "slot taken"))) "slot taken" :=
  (C8_amended_failure_reasons phys0 remoteDraft user0 (by decide)).2.2.2.2

/-- C9: the mode mutator changes only the mode field: every other field of the
draft, the five address fields included, is unchanged, and switching from
in-person to remote and back yields the same state as switching to in-person
directly — previously entered address values are never cleared. -/
theorem C9_mode_switch_preserves_address (s : BookingState) (t : ConsultationType) :
    (setMode s t).addressStreet = s.addressStreet ∧
    (setMode s t).addressNumber = s.addressNumber ∧
    (setMode s t).addressNeighborhood = s.addressNeighborhood ∧
    (setMode s t).addressCity = s.addressCity ∧
    (setMode s t).addressState = s.addressState ∧
    (setMode s t).selectedDate = s.selectedDate ∧
    (setMode s t).selectedTime = s.selectedTime ∧
    (setMode s t).notes = s.notes ∧
    (setMode s t).isLoading = s.isLoading ∧
    (setMode s t).consultationType = t ∧
    setMode (setMode s ConsultationType.online) ConsultationType.presencial =
      setMode s ConsultationType.presencial :=
  ⟨rfl, rfl, rfl, rfl, rfl, rfl, rfl, rfl, rfl, rfl, rfl⟩

/-- C10: for every in-person submission, the request handed to the port
carries a single concatenated address string, street and number joined by a
comma-space and the neighborhood appended after a space-dash-space, while city
and state travel as separate fields. -/
theorem C10_address_concatenation (phys : Physiotherapist) (s : BookingState) (u : User)
    (r : PortResult) (hmode : s.consultationType = ConsultationType.presencial)
    (h : canSubmit s = true) :
    firstRequest (handleBooking phys s (some u) r) = some (mkRequest phys u s) ∧
    (mkRequest phys u s).address =
      some (s.addressStreet ++ ", " ++ s.addressNumber ++ " - " ++ s.addressNeighborhood) ∧
    (mkRequest phys u s).city = some s.addressCity ∧
    (mkRequest phys u s).state = some s.addressState := by
  have heq := handleBooking_valid_user phys s u r h
  refine ⟨by rw [heq]; rfl, ?_, ?_, ?_⟩ <;> simp [mkRequest, hmode]

theorem C10_witness :
    (mkRequest phys0 user0 inPersonComplete).address = some "Rua A, 42 - Centro" := by
  have h := C10_address_concatenation phys0 inPersonComplete user0 PortResult.thrown rfl (by decide)
  exact h.2.1

end FisioVem
